import Mathlib

/-!
Verification development for the task-diagnostics pipeline
(diagnostico_gestor_com_ia.py): schema adapters, task classifier,
metrics engine and aggregation layer, shallowly embedded in Lean.

Modelling conventions:
- A tabular raw record (pandas row) is an association list from column
  names to string values; a DataFrame is a list of such rows.
- Calendar instants are integers (days since 1970-01-01); an optional
  date models a pandas value that may be NaT.  Elementwise comparison
  with NaT is false, and subtraction with NaT yields NaT (none), exactly
  as in pandas.
- The derived month key mirrors pandas to_period followed by astype:
  a present date maps to the sortable string YYYY-MM obtained from the
  proleptic Gregorian calendar; NaT maps to the literal string NaT.
-/

/-- One raw or canonical tabular row: column name to cell value. -/
abbrev Row := List (String × String)

/-- Rename a single column name through a mapping table; names not in the
table are kept, matching the behaviour of pandas rename. -/
def renameKey (m : List (String × String)) (k : String) : String :=
  match m.find? (fun p => p.1 == k) with
  | some p => p.2
  | none => k

/-- Rename every column of one row through a mapping table. -/
def renameRow (m : List (String × String)) (r : Row) : Row :=
  r.map (fun p => (renameKey m p.1, p.2))

/-- Set a column on a row (assignment of a constant column in pandas):
any previous binding of the name is dropped and the new one appended. -/
def setCol (k v : String) (r : Row) : Row :=
  r.filter (fun p => p.1 != k) ++ [(k, v)]

/-- Look up a column value in a row. -/
def lookupCol (k : String) (r : Row) : Option String :=
  match r.find? (fun p => p.1 == k) with
  | some p => some p.2
  | none => none

/-- The G-Click column mapping of padronizar_gclick. -/
def gclickMap : List (String × String) :=
  [("Task ID", "id_tarefa"),
   ("Task Name", "nome_tarefa"),
   ("Client Name", "cliente"),
   ("Assignee", "responsavel"),
   ("Due Date", "data_prevista_conclusao"),
   ("Completion Date", "data_real_conclusao")]

/-- The Onvio column mapping of padronizar_onvio. -/
def onvioMap : List (String × String) :=
  [("ProcessoID", "id_tarefa"),
   ("Descricao", "nome_tarefa"),
   ("NomeCliente", "cliente"),
   ("Executor", "responsavel"),
   ("PrazoFatal", "data_prevista_conclusao"),
   ("DataFinalizacao", "data_real_conclusao")]

/-- padronizar_gclick: rename the G-Click columns to the canonical names
and stamp origem_ferramenta on every row. -/
def padronizar_gclick (df : List Row) : List Row :=
  df.map (fun r => setCol "origem_ferramenta" "G-Click" (renameRow gclickMap r))

/-- padronizar_onvio: rename the Onvio columns to the canonical names
and stamp origem_ferramenta on every row. -/
def padronizar_onvio (df : List Row) : List Row :=
  df.map (fun r => setCol "origem_ferramenta" "Onvio" (renameRow onvioMap r))

/-- A G-Click raw row with all six source columns, in file order. -/
def gclickRaw (i n c a d f : String) : Row :=
  [("Task ID", i), ("Task Name", n), ("Client Name", c),
   ("Assignee", a), ("Due Date", d), ("Completion Date", f)]

/-- An Onvio raw row with all six source columns, in file order. -/
def onvioRaw (i n c a d f : String) : Row :=
  [("ProcessoID", i), ("Descricao", n), ("NomeCliente", c),
   ("Executor", a), ("PrazoFatal", d), ("DataFinalizacao", f)]

/-- Drop a column from a row. -/
def removeCol (k : String) (r : Row) : Row :=
  r.filter (fun p => p.1 != k)

/-- Lowercase one character the way Python str.lower does on the
alphabet used by the keyword table: ASCII letters and the Latin-1
uppercase range (which covers the accented letters of the keywords). -/
def charLower (c : Char) : Char :=
  if (65 ≤ c.toNat ∧ c.toNat ≤ 90) ∨
     (192 ≤ c.toNat ∧ c.toNat ≤ 222 ∧ c.toNat ≠ 215) then
    Char.ofNat (c.toNat + 32)
  else c

/-- Lowercase a string (model of the str lower call on the task name). -/
def lowerStr (s : String) : String := String.mk (s.data.map charLower)

/-- Whether the second list starts with the first one. -/
def listBeginsWith : List Char → List Char → Bool
  | [], _ => true
  | _ :: _, [] => false
  | a :: as, b :: bs => a == b && listBeginsWith as bs

/-- Substring containment on character lists (the Python in operator). -/
def temSub (sub : List Char) : List Char → Bool
  | [] => sub.isEmpty
  | c :: rest => listBeginsWith sub (c :: rest) || temSub sub rest

/-- Whether the name contains any keyword of the list as a substring. -/
def contemAlguma (n : String) (kws : List String) : Bool :=
  kws.any (fun k => temSub k.data n.data)

/-- Fiscal keyword set, first in priority. -/
def palavrasFiscal : List String := ["dctf", "sped", "fiscal", "imposto", "das"]

/-- Accounting keyword set, second in priority. -/
def palavrasContabil : List String := ["balancete", "contábil", "conciliação"]

/-- Payroll keyword set, third in priority. -/
def palavrasPessoal : List String := ["folha", "admissão", "rescisão", "esocial"]

/-- categorizar_tarefa: lowercase the task name and test the three
keyword sets in priority order; no match falls through to Outros. -/
def categorizar_tarefa (nome_tarefa : String) : String :=
  let n := lowerStr nome_tarefa
  if contemAlguma n palavrasFiscal then "Fiscal"
  else if contemAlguma n palavrasContabil then "Contábil"
  else if contemAlguma n palavrasPessoal then "Depto. Pessoal"
  else "Outros"

/-- The canonical task after adapter mapping and date parsing: the two
date columns hold parsed calendar dates, none standing for NaT
(absent or unparseable source values, coerced silently). -/
structure CanonicalTask where
  id_tarefa : String
  nome_tarefa : String
  cliente : String
  responsavel : String
  data_prevista_conclusao : Option Int
  data_real_conclusao : Option Int
  origem_ferramenta : String
deriving Repr, DecidableEq

/-- Elementwise strictly-greater on optional dates: comparison against
NaT is false, as in pandas. -/
def optGt : Option Int → Option Int → Bool
  | some a, some b => b < a
  | _, _ => false

/-- Elementwise subtraction on optional dates: NaT propagates. -/
def optSub : Option Int → Option Int → Option Int
  | some a, some b => some (a - b)
  | _, _ => none

/-- Proleptic Gregorian civil date (year, month, day) of a day count
since 1970-01-01, the calendar pandas timestamps live in. -/
def civilFromDays (z0 : Int) : Int × Int × Int :=
  let z := z0 + 719468
  let era := z.fdiv 146097
  let doe := z - era * 146097
  let yoe := (doe - doe / 1460 + doe / 36524 - doe / 146096) / 365
  let y := yoe + era * 400
  let doy := doe - (365 * yoe + yoe / 4 - yoe / 100)
  let mp := (5 * doy + 2) / 153
  let d := doy - (153 * mp + 2) / 5 + 1
  let m := mp + (if mp < 10 then 3 else -9)
  (if m ≤ 2 then y + 1 else y, m, d)

/-- The sortable year-month key YYYY-MM of a month period. -/
def yyyy_mm (y m : Int) : String :=
  toString y ++ "-" ++ (if m < 10 then "0" ++ toString m else toString m)

/-- The month-key column value of an optional completion date:
astype(str) of to_period turns NaT into the literal string NaT. -/
def mesConclusaoDe : Option Int → String
  | none => "NaT"
  | some d => yyyy_mm (civilFromDays d).1 (civilFromDays d).2.1

/-- A canonical task enriched by calcular_metricas with the four derived
columns. -/
structure TarefaAnalise extends CanonicalTask where
  status_prazo : String
  dias_de_atraso : Option Int
  tipo_tarefa : String
  mes_conclusao : String
deriving Repr, DecidableEq

/-- One row of calcular_metricas: the default status No Prazo is
overwritten by Em Atraso where the completion date exceeds the due
date, then by Pendente where the completion date is NaT; the delay is
the elementwise date difference with negatives clamped to zero (NaT
rows keep NaT, since NaT compares false with zero). -/
def calcular_metricas_row (t : CanonicalTask) : TarefaAnalise :=
  let s1 := "No Prazo"
  let s2 := if optGt t.data_real_conclusao t.data_prevista_conclusao then "Em Atraso" else s1
  let s3 := if t.data_real_conclusao.isNone then "Pendente" else s2
  let dias0 := optSub t.data_real_conclusao t.data_prevista_conclusao
  let dias := match dias0 with
    | some d => if d < 0 then some 0 else some d
    | none => none
  { t with
    status_prazo := s3
    dias_de_atraso := dias
    tipo_tarefa := categorizar_tarefa t.nome_tarefa
    mes_conclusao := mesConclusaoDe t.data_real_conclusao }

/-- calcular_metricas over a whole batch. -/
def calcular_metricas (df : List CanonicalTask) : List TarefaAnalise :=
  df.map calcular_metricas_row

/-- The sidebar filter: tasks whose client and assignee are both among
the selected values (line 112 of the source). -/
def filtrar (clientes responsaveis : List String) (ts : List TarefaAnalise) :
    List TarefaAnalise :=
  ts.filter (fun t => clientes.contains t.cliente && responsaveis.contains t.responsavel)

/-- Overall on-time rate: share of No Prazo rows times 100, defined as
0 on an empty set by the explicit guard of line 119. -/
def taxa_no_prazo (ts : List TarefaAnalise) : Rat :=
  if 0 < ts.length then
    ((ts.countP (fun t => t.status_prazo == "No Prazo") : Rat) / (ts.length : Rat)) * 100
  else 0

/-- The delay values of the rows with a strictly positive delay (the
filter of line 121; NaT delays compare false and are excluded). -/
def atrasosPositivos (ts : List TarefaAnalise) : List Int :=
  ts.filterMap (fun t =>
    match t.dias_de_atraso with
    | some d => if 0 < d then some d else none
    | none => none)

/-- media_atraso: the mean of dias_de_atraso over the rows where it is
strictly positive; none (rendered N/A) when that set is empty, exactly
as mean of an empty pandas series is NaN. -/
def media_atraso (ts : List TarefaAnalise) : Option Rat :=
  let xs := atrasosPositivos ts
  if 0 < xs.length then
    some (((xs.map (fun d => (d : Rat))).sum) / (xs.length : Rat))
  else none

/-- Specification-side mean delay: the average of dias_de_atraso taken
only over the rows whose status is Em Atraso, absent when there is no
such row.  Stated from the words of the spec, to be compared with
media_atraso. -/
def media_atraso_late_spec (ts : List TarefaAnalise) : Option Rat :=
  let ls := ts.filter (fun t => t.status_prazo == "Em Atraso")
  let ds : List Int := ls.filterMap (fun t => t.dias_de_atraso)
  if 0 < ls.length then
    some (((ds.map (fun d => (d : Rat))).sum) / (ls.length : Rat))
  else none

/-- The distinct values of a key column, in order of first appearance. -/
def chavesDe (f : TarefaAnalise → String) : List TarefaAnalise → List String
  | [] => []
  | t :: rest =>
    let ks := chavesDe f rest
    if f t ∈ ks then ks else f t :: ks

/-- Task volume per assignee (groupby size of line 133). -/
def tarefas_por_responsavel (ts : List TarefaAnalise) : List (String × Nat) :=
  (chavesDe (fun t => t.responsavel) ts).map
    (fun k => (k, ts.countP (fun t => t.responsavel == k)))

/-- On-time share of a group of rows, times 100. -/
def taxaGrupo (g : List TarefaAnalise) : Rat :=
  ((g.countP (fun t => t.status_prazo == "No Prazo") : Rat) / (g.length : Rat)) * 100

/-- On-time rate per assignee over the non-Pendente rows (line 138). -/
def prazo_por_responsavel (ts : List TarefaAnalise) : List (String × Rat) :=
  let np := ts.filter (fun t => t.status_prazo != "Pendente")
  (chavesDe (fun t => t.responsavel) np).map
    (fun k => (k, taxaGrupo (np.filter (fun t => t.responsavel == k))))

/-- Count of Em Atraso rows per task category (line 144). -/
def atrasos_por_tipo (ts : List TarefaAnalise) : List (String × Nat) :=
  let ls := ts.filter (fun t => t.status_prazo == "Em Atraso")
  (chavesDe (fun t => t.tipo_tarefa) ls).map
    (fun k => (k, ls.countP (fun t => t.tipo_tarefa == k)))

/-- On-time rate per completion month over the non-Pendente rows
(lines 151 to 153). -/
def evolucao_mensal (ts : List TarefaAnalise) : List (String × Rat) :=
  let np := ts.filter (fun t => t.status_prazo != "Pendente")
  (chavesDe (fun t => t.mes_conclusao) np).map
    (fun k => (k, taxaGrupo (np.filter (fun t => t.mes_conclusao == k))))

/-- The summary record assembled by the dashboard from a filtered set. -/
structure Resumo where
  total : Nat
  taxa : Rat
  media : Option Rat
  por_responsavel : List (String × Nat)
  prazo_responsavel : List (String × Rat)
  por_tipo : List (String × Nat)
  evolucao : List (String × Rat)
deriving Repr, DecidableEq

/-- summarize: all the aggregate figures the dashboard computes over the
filtered task set. -/
def summarize (ts : List TarefaAnalise) : Resumo :=
  { total := ts.length
    taxa := taxa_no_prazo ts
    media := media_atraso ts
    por_responsavel := tarefas_por_responsavel ts
    prazo_responsavel := prazo_por_responsavel ts
    por_tipo := atrasos_por_tipo ts
    evolucao := evolucao_mensal ts }

/-- C9: metrics enrichment only adds the four derived columns; every
field already set on the canonical task is returned unchanged. -/
theorem enrich_preserves_base (t : CanonicalTask) :
    (calcular_metricas_row t).id_tarefa = t.id_tarefa
    ∧ (calcular_metricas_row t).nome_tarefa = t.nome_tarefa
    ∧ (calcular_metricas_row t).cliente = t.cliente
    ∧ (calcular_metricas_row t).responsavel = t.responsavel
    ∧ (calcular_metricas_row t).data_prevista_conclusao = t.data_prevista_conclusao
    ∧ (calcular_metricas_row t).data_real_conclusao = t.data_real_conclusao
    ∧ (calcular_metricas_row t).origem_ferramenta = t.origem_ferramenta :=
  ⟨rfl, rfl, rfl, rfl, rfl, rfl, rfl⟩

/-- C7: the summary of an empty filtered task set is all zeros, an
absent mean delay and empty groupings, with no division performed. -/
theorem summarize_empty : summarize [] =
    { total := 0, taxa := 0, media := none, por_responsavel := [],
      prazo_responsavel := [], por_tipo := [], evolucao := [] } := by
  decide

/-- C2: after enrichment the status is Pendente exactly when the
completion date is absent, Em Atraso exactly when it is present and
strictly after the due date, and No Prazo exactly when it is present
and not after the due date; equal dates give No Prazo. -/
theorem status_prazo_casos (t : CanonicalTask) :
    ((calcular_metricas_row t).status_prazo = "Pendente" ↔ t.data_real_conclusao = none)
    ∧ ((calcular_metricas_row t).status_prazo = "Em Atraso" ↔
        ∃ r p, t.data_real_conclusao = some r ∧ t.data_prevista_conclusao = some p ∧ p < r)
    ∧ ((calcular_metricas_row t).status_prazo = "No Prazo" ↔
        ∃ r, t.data_real_conclusao = some r ∧
          ∀ p, t.data_prevista_conclusao = some p → r ≤ p)
    ∧ (∀ d : Int, t.data_real_conclusao = some d → t.data_prevista_conclusao = some d →
        (calcular_metricas_row t).status_prazo = "No Prazo") := by
  obtain ⟨i, n, c, a, dp, dr, o⟩ := t
  rcases dp with _ | p <;> rcases dr with _ | r <;>
    simp [calcular_metricas_row, optGt, optSub]
  refine ⟨?_, ?_⟩
  · split <;> decide
  · omega

/-- C2 witness: a task completed exactly on its due date is No Prazo. -/
theorem status_prazo_casos_witness :
    (calcular_metricas_row
      { id_tarefa := "T1", nome_tarefa := "Envio DCTF", cliente := "Acme",
        responsavel := "Ana", data_prevista_conclusao := some 19732,
        data_real_conclusao := some 19732, origem_ferramenta := "G-Click" }).status_prazo
      = "No Prazo" :=
  (status_prazo_casos _).2.2.2 19732 rfl rfl

/-- C3: with both dates present the delay is the clamped whole-day
difference max 0 (completed minus due); completion one day past the due
date gives Em Atraso with delay 1; an absent completion date performs
no subtraction and leaves the delay absent. -/
theorem dias_de_atraso_eq (t : CanonicalTask) :
    (∀ p r : Int, t.data_prevista_conclusao = some p → t.data_real_conclusao = some r →
      (calcular_metricas_row t).dias_de_atraso = some (max 0 (r - p))
      ∧ (r = p + 1 → (calcular_metricas_row t).status_prazo = "Em Atraso"
          ∧ (calcular_metricas_row t).dias_de_atraso = some 1))
    ∧ (t.data_real_conclusao = none → (calcular_metricas_row t).dias_de_atraso = none) := by
  obtain ⟨i, n, c, a, dp, dr, o⟩ := t
  rcases dp with _ | p <;> rcases dr with _ | r <;>
    simp [calcular_metricas_row, optGt, optSub]
  refine ⟨?_, ?_⟩
  · split <;> simp <;> omega
  · rintro rfl
    refine ⟨by omega, ?_⟩
    rw [if_neg (by omega)]
    norm_num

/-- C3 witness: completing five days after the due date yields delay 5,
and one day after yields Em Atraso with delay 1. -/
theorem dias_de_atraso_eq_witness :
    (calcular_metricas_row
      { id_tarefa := "T1", nome_tarefa := "Envio DCTF", cliente := "Acme",
        responsavel := "Ana", data_prevista_conclusao := some 19732,
        data_real_conclusao := some 19737, origem_ferramenta := "G-Click" }).dias_de_atraso
      = some (max 0 (19737 - 19732)) :=
  ((dias_de_atraso_eq _).1 19732 19737 rfl rfl).1

/-- C10: a task with an absent or unparseable due date and a present
completion date is classified No Prazo with an absent delay, and it is
counted in the numerator of the on-time rate. -/
theorem status_due_absent (t : CanonicalTask) (r : Int)
    (hd : t.data_prevista_conclusao = none) (hr : t.data_real_conclusao = some r) :
    (calcular_metricas_row t).status_prazo = "No Prazo"
    ∧ (calcular_metricas_row t).dias_de_atraso = none
    ∧ ∀ ts : List TarefaAnalise,
        (calcular_metricas_row t :: ts).countP (fun u => u.status_prazo == "No Prazo")
          = ts.countP (fun u => u.status_prazo == "No Prazo") + 1 := by
  obtain ⟨i, n, c, a, dp, dr, o⟩ := t
  simp only at hd hr
  subst hd; subst hr
  refine ⟨rfl, rfl, ?_⟩
  intro ts
  simp [List.countP_cons, calcular_metricas_row, optGt, optSub]

/-- C10 witness: a concrete task with no due date and a completion date
is No Prazo with an absent delay and increments the on-time count. -/
theorem status_due_absent_witness :
    (calcular_metricas_row
      { id_tarefa := "T2", nome_tarefa := "Balancete", cliente := "Acme",
        responsavel := "Ana", data_prevista_conclusao := none,
        data_real_conclusao := some 19737, origem_ferramenta := "Onvio" }).status_prazo
      = "No Prazo"
    ∧ ([calcular_metricas_row
      { id_tarefa := "T2", nome_tarefa := "Balancete", cliente := "Acme",
        responsavel := "Ana", data_prevista_conclusao := none,
        data_real_conclusao := some 19737, origem_ferramenta := "Onvio" }].countP
        (fun u => u.status_prazo == "No Prazo")) = 1 :=
  ⟨(status_due_absent _ 19737 rfl rfl).1,
   (status_due_absent _ 19737 rfl rfl).2.2 []⟩

/-- C6: the classifier is total with exactly the four labels, and the
keyword sets are tested in priority order Fiscal, Contábil,
Depto. Pessoal, first match winning, with Outros as the fallback. -/
theorem categorizar_total_prioridade (s : String) :
    (categorizar_tarefa s = "Fiscal" ∨ categorizar_tarefa s = "Contábil"
      ∨ categorizar_tarefa s = "Depto. Pessoal" ∨ categorizar_tarefa s = "Outros")
    ∧ (contemAlguma (lowerStr s) palavrasFiscal = true → categorizar_tarefa s = "Fiscal")
    ∧ (contemAlguma (lowerStr s) palavrasFiscal = false →
        contemAlguma (lowerStr s) palavrasContabil = true →
        categorizar_tarefa s = "Contábil")
    ∧ (contemAlguma (lowerStr s) palavrasFiscal = false →
        contemAlguma (lowerStr s) palavrasContabil = false →
        contemAlguma (lowerStr s) palavrasPessoal = true →
        categorizar_tarefa s = "Depto. Pessoal")
    ∧ (contemAlguma (lowerStr s) palavrasFiscal = false →
        contemAlguma (lowerStr s) palavrasContabil = false →
        contemAlguma (lowerStr s) palavrasPessoal = false →
        categorizar_tarefa s = "Outros") := by
  simp only [categorizar_tarefa]
  refine ⟨?_, ?_, ?_, ?_, ?_⟩
  · split_ifs <;> simp
  · intro h; simp [h]
  · intro h1 h2; simp [h1, h2]
  · intro h1 h2 h3; simp [h1, h2, h3]
  · intro h1 h2 h3; simp [h1, h2, h3]

/-- C6 witness: a name holding both a Fiscal and a Payroll keyword
resolves to Fiscal, the higher-priority set. -/
theorem categorizar_total_prioridade_witness :
    contemAlguma (lowerStr "Folha FISCAL") palavrasFiscal = true
    ∧ contemAlguma (lowerStr "Folha FISCAL") palavrasPessoal = true
    ∧ categorizar_tarefa "Folha FISCAL" = "Fiscal" :=
  ⟨rfl, rfl, (categorizar_total_prioridade "Folha FISCAL").2.1 rfl⟩

/-- C4 counterexample: on a task with an absent completion date the
month column is not absent but holds the sentinel string NaT, the
astype rendering of a pandas NaT period. -/
theorem mes_conclusao_pendente_sentinela :
    (calcular_metricas_row
      { id_tarefa := "T1", nome_tarefa := "Envio DCTF", cliente := "Acme",
        responsavel := "Ana", data_prevista_conclusao := some 19732,
        data_real_conclusao := none, origem_ferramenta := "G-Click" }).mes_conclusao
      = "NaT" := rfl

/-- C4 as amended: with a present completion date the month column is
the sortable YYYY-MM key of its calendar year and month; with an absent
completion date it is the sentinel string NaT rather than an absent
value. -/
theorem mes_conclusao_eq (t : CanonicalTask) :
    (∀ d : Int, t.data_real_conclusao = some d →
      (calcular_metricas_row t).mes_conclusao =
        yyyy_mm (civilFromDays d).1 (civilFromDays d).2.1)
    ∧ (t.data_real_conclusao = none → (calcular_metricas_row t).mes_conclusao = "NaT") := by
  obtain ⟨i, n, c, a, dp, dr, o⟩ := t
  rcases dr with _ | r <;> simp [calcular_metricas_row, mesConclusaoDe]

/-- C4 witness: the completion date 2024-01-15 is bucketed as the key
2024-01. -/
theorem mes_conclusao_eq_witness :
    civilFromDays 19737 = (2024, 1, 15)
    ∧ (calcular_metricas_row
      { id_tarefa := "T1", nome_tarefa := "Envio DCTF", cliente := "Acme",
        responsavel := "Ana", data_prevista_conclusao := some 19732,
        data_real_conclusao := some 19737, origem_ferramenta := "G-Click" }).mes_conclusao
      = "2024-01" := by
  refine ⟨by decide, ?_⟩
  have h := (mes_conclusao_eq
    { id_tarefa := "T1", nome_tarefa := "Envio DCTF", cliente := "Acme",
      responsavel := "Ana", data_prevista_conclusao := some 19732,
      data_real_conclusao := some 19737, origem_ferramenta := "G-Click" }).1 19737 rfl
  rw [h]
  decide

/-- Setting a column always makes it readable back, whatever the row
held before. -/
theorem lookup_setCol (k v : String) (r : Row) : lookupCol k (setCol k v r) = some v := by
  unfold lookupCol setCol
  have h : (r.filter (fun p => p.1 != k)).find? (fun p => p.1 == k) = none := by
    rw [List.find?_eq_none]
    intro p hp
    have hm := List.of_mem_filter hp
    simpa using hm
  rw [List.find?_append, h]
  simp

/-- C1 counterexample: a raw set whose single record lacks every
required G-Click column except Task Name is adapted without any
failure, yielding one partial record rather than zero records. -/
theorem padronizar_sem_coluna_cex :
    padronizar_gclick [[("Task Name", "Envio DCTF")]]
      = [[("nome_tarefa", "Envio DCTF"), ("origem_ferramenta", "G-Click")]]
    ∧ (padronizar_gclick [[("Task Name", "Envio DCTF")]]).length ≠ 0 := by
  constructor
  · rfl
  · decide

/-- C1 as amended: the adapters never fail and never check the schema;
whatever columns are missing, each raw row yields exactly one output
row with the source-tool stamp set, the present mapped columns renamed
and the missing ones silently left out. -/
theorem padronizar_total (df : List Row) :
    (padronizar_gclick df).length = df.length
    ∧ (padronizar_onvio df).length = df.length
    ∧ (∀ r, r ∈ padronizar_gclick df → lookupCol "origem_ferramenta" r = some "G-Click")
    ∧ (∀ r, r ∈ padronizar_onvio df → lookupCol "origem_ferramenta" r = some "Onvio") := by
  refine ⟨by simp [padronizar_gclick], by simp [padronizar_onvio], ?_, ?_⟩
  · intro r hr
    rw [padronizar_gclick, List.mem_map] at hr
    obtain ⟨a, _, ha⟩ := hr
    rw [← ha]
    exact lookup_setCol _ _ _
  · intro r hr
    rw [padronizar_onvio, List.mem_map] at hr
    obtain ⟨a, _, ha⟩ := hr
    rw [← ha]
    exact lookup_setCol _ _ _

/-- C1 witness: the partial record produced from a schema-violating raw
row still carries the G-Click stamp. -/
theorem padronizar_total_witness :
    lookupCol "origem_ferramenta"
      [("nome_tarefa", "Envio DCTF"), ("origem_ferramenta", "G-Click")] = some "G-Click" :=
  (padronizar_total [[("Task Name", "Envio DCTF")]]).2.2.1 _ (by decide)

/-- C8: logically identical raw rows from the two supported tools adapt
to canonical rows that agree on every column except the
origem_ferramenta stamp, which records the respective tool. -/
theorem adaptadores_equivalentes (i n c a d f : String) :
    (padronizar_gclick [gclickRaw i n c a d f]).map (removeCol "origem_ferramenta")
      = (padronizar_onvio [onvioRaw i n c a d f]).map (removeCol "origem_ferramenta")
    ∧ (padronizar_gclick [gclickRaw i n c a d f]).map (lookupCol "origem_ferramenta")
      = [some "G-Click"]
    ∧ (padronizar_onvio [onvioRaw i n c a d f]).map (lookupCol "origem_ferramenta")
      = [some "Onvio"] :=
  ⟨rfl, rfl, rfl⟩

/-- On an enriched row, a strictly positive delay is present exactly
when the status is Em Atraso; every other row contributes no positive
delay. -/
theorem row_late_dias (t : CanonicalTask) :
    ((calcular_metricas_row t).status_prazo = "Em Atraso"
      ∧ ∃ d, (calcular_metricas_row t).dias_de_atraso = some d ∧ 0 < d)
    ∨ ((calcular_metricas_row t).status_prazo ≠ "Em Atraso"
      ∧ ∀ d, (calcular_metricas_row t).dias_de_atraso = some d → ¬ 0 < d) := by
  obtain ⟨i, n, c, a, dp, dr, o⟩ := t
  rcases dp with _ | p <;> rcases dr with _ | r <;>
    simp [calcular_metricas_row, optGt, optSub]
  rcases lt_or_ge p r with h | h
  · exact Or.inl ⟨h, r - p, by rw [if_neg (by omega)], by omega⟩
  · refine Or.inr ⟨by omega, ?_⟩
    intro d hd
    rcases lt_or_ge r p with h2 | h2
    · rw [if_pos h2] at hd
      simp at hd
      omega
    · rw [if_neg (by omega)] at hd
      simp at hd
      omega

/-- Over a list of rows on which positive delay and Em Atraso status
coincide, the positive-delay values are exactly the delay values of the
Em Atraso rows, in equal number. -/
theorem atrasos_late_lists (ts : List TarefaAnalise)
    (hw : ∀ t ∈ ts,
      (t.status_prazo = "Em Atraso" ∧ ∃ d, t.dias_de_atraso = some d ∧ 0 < d)
      ∨ (t.status_prazo ≠ "Em Atraso" ∧ ∀ d, t.dias_de_atraso = some d → ¬ 0 < d)) :
    atrasosPositivos ts
      = (ts.filter (fun t => t.status_prazo == "Em Atraso")).filterMap
          (fun t => t.dias_de_atraso)
    ∧ (atrasosPositivos ts).length
      = (ts.filter (fun t => t.status_prazo == "Em Atraso")).length := by
  induction ts with
  | nil => exact ⟨rfl, rfl⟩
  | cons t rest ih =>
    have hrest := ih (fun u hu => hw u (List.mem_cons_of_mem t hu))
    rcases hw t (List.mem_cons_self t rest) with ⟨hl, d, hd, hdp⟩ | ⟨hl, hnd⟩
    · have h1 : atrasosPositivos (t :: rest) = d :: atrasosPositivos rest := by
        simp [atrasosPositivos, List.filterMap_cons, hd, hdp]
      have h2 : (t :: rest).filter (fun t => t.status_prazo == "Em Atraso")
          = t :: rest.filter (fun t => t.status_prazo == "Em Atraso") := by
        simp [List.filter_cons, hl]
      rw [h1, h2]
      constructor
      · simp [List.filterMap_cons, hd, hrest.1]
      · simp [hrest.2]
    · have hcontrib : (match t.dias_de_atraso with
        | some d => if 0 < d then some d else none
        | none => none) = (none : Option Int) := by
        rcases hds : t.dias_de_atraso with _ | d
        · rfl
        · simp [if_neg (hnd d hds)]
      have h1 : atrasosPositivos (t :: rest) = atrasosPositivos rest := by
        simp only [atrasosPositivos, List.filterMap_cons]
        rw [hcontrib]
      have h2 : (t :: rest).filter (fun t => t.status_prazo == "Em Atraso")
          = rest.filter (fun t => t.status_prazo == "Em Atraso") := by
        simp [List.filter_cons, hl]
      rw [h1, h2]
      exact hrest

/-- C5: the dashboard mean delay over positive-delay rows equals the
average of dias_de_atraso taken only over the Em Atraso rows, and when
no Em Atraso row exists it is the absent value none, never a sentinel
number. -/
theorem media_atraso_eq_spec (df : List CanonicalTask) :
    media_atraso (calcular_metricas df) = media_atraso_late_spec (calcular_metricas df)
    ∧ ((calcular_metricas df).countP (fun t => t.status_prazo == "Em Atraso") = 0 →
        media_atraso (calcular_metricas df) = none) := by
  have hw : ∀ t ∈ calcular_metricas df,
      (t.status_prazo = "Em Atraso" ∧ ∃ d, t.dias_de_atraso = some d ∧ 0 < d)
      ∨ (t.status_prazo ≠ "Em Atraso" ∧ ∀ d, t.dias_de_atraso = some d → ¬ 0 < d) := by
    intro t ht
    rw [calcular_metricas, List.mem_map] at ht
    obtain ⟨u, _, hu⟩ := ht
    rw [← hu]
    exact row_late_dias u
  obtain ⟨h1, h2⟩ := atrasos_late_lists (calcular_metricas df) hw
  constructor
  · simp only [media_atraso, media_atraso_late_spec]
    have h2' : (((calcular_metricas df).filter
          (fun t => t.status_prazo == "Em Atraso")).filterMap
            (fun t => t.dias_de_atraso)).length
        = ((calcular_metricas df).filter
            (fun t => t.status_prazo == "Em Atraso")).length := by
      rw [← h1]
      exact h2
    rw [h1, h2']
  · intro h0
    have hz : (atrasosPositivos (calcular_metricas df)).length = 0 := by
      rw [h2, ← List.countP_eq_length_filter]
      exact h0
    simp only [media_atraso]
    rw [hz]
    simp

/-- C5 witness: a batch whose only task is still pending has no Em
Atraso row and its mean delay is the absent value. -/
theorem media_atraso_eq_spec_witness :
    media_atraso (calcular_metricas
      [{ id_tarefa := "T1", nome_tarefa := "Envio DCTF", cliente := "Acme",
         responsavel := "Ana", data_prevista_conclusao := some 19732,
         data_real_conclusao := none, origem_ferramenta := "G-Click" }]) = none :=
  (media_atraso_eq_spec _).2 (by decide)
